import Mathlib

/-!
Verification of the test_maker repository's core step model, Code Emitter
(`generateStepCode`, `generateTestCode`'s `formatExpectedResult`) and Live
Execution Engine (`BrowserTestRunner.tsx`: `parseSteps`, `resolveUrl`,
`executeStep`, `runTest`).

The TypeScript source is shallowly embedded: strings are `String`, JS
`undefined`-able fields are `Option String`, JS truthiness of strings is
modelled explicitly (`""` is falsy), thrown exceptions are `Except`, the
effectful per-step execution of the live engine is abstracted as an oracle
`exec : Nat → ExecResult`, and the React state updates performed through
`setResults` functional updates are modelled as explicit list updates.
A React function component closure captures the state value of the render
that created it; the `results` and `error` identifiers read inside `runTest`
therefore refer to the stale pre-run snapshot, which the model passes in
explicitly as `results0` and `errClosure`.
-/

set_option autoImplicit false

namespace TestMaker

/-- JS `String.prototype.startsWith`, modelled on the character list. -/
def jsStartsWith (s pat : String) : Bool :=
  pat.toList.isPrefixOf s.toList

/-- JS `String.prototype.includes`, modelled on the character list. -/
def jsIncludes (s pat : String) : Bool :=
  decide (pat.toList <:+: s.toList)

/-- JS truthiness of a possibly-`undefined` string: `undefined` and `""` are falsy. -/
def jsTruthy : Option String → Bool
  | some s => !(s == "")
  | none => false

/-- JS `a || d` for a possibly-`undefined` string `a` and string default `d`. -/
def jsOrStr (a : Option String) (d : String) : String :=
  match a with
  | some s => if s == "" then d else s
  | none => d

/-- JS `a || null` for a possibly-`undefined`/empty string (used for `error || null`). -/
def jsOrNull (a : Option String) : Option String :=
  match a with
  | some s => if s == "" then none else some s
  | none => none

/-- Model of `prev.map((r, idx) => idx === i ? f(r) : r)`: update index `i` of a list. -/
def updAt {α : Type} : List α → Nat → (α → α) → List α
  | [], _, _ => []
  | r :: rs, 0, f => f r :: rs
  | r :: rs, n + 1, f => r :: updAt rs n f

@[simp] theorem updAt_nil {α : Type} (i : Nat) (f : α → α) : updAt [] i f = [] := rfl

@[simp] theorem updAt_length {α : Type} (l : List α) (i : Nat) (f : α → α) :
    (updAt l i f).length = l.length := by
  induction l generalizing i with
  | nil => rfl
  | cons r rs ih =>
    cases i with
    | zero => rfl
    | succ n => simp [updAt, ih]

theorem getElem?_updAt_ne {α : Type} (l : List α) (i j : Nat) (f : α → α) (h : j ≠ i) :
    (updAt l i f)[j]? = l[j]? := by
  induction l generalizing i j with
  | nil => rfl
  | cons r rs ih =>
    cases i with
    | zero =>
      cases j with
      | zero => exact absurd rfl h
      | succ m => simp [updAt]
    | succ n =>
      cases j with
      | zero => simp [updAt]
      | succ m =>
        simp only [updAt, List.getElem?_cons_succ]
        exact ih n m (fun hc => h (by simp [hc]))

theorem getElem?_updAt_eq {α : Type} (l : List α) (i : Nat) (f : α → α) :
    (updAt l i f)[i]? = (l[i]?).map f := by
  induction l generalizing i with
  | nil => rfl
  | cons r rs ih =>
    cases i with
    | zero => simp [updAt]
    | succ n => simpa [updAt] using ih n

/-! ## Step model (`src/unnamed/part_007`, `TestStep`) -/

/-- The `type` field of the `TestStep` tagged union. -/
inductive StepType where
  | navigate | click | fill | wait | waitForPageLoad
  | verifyElement | assert | custom | api_call
  deriving DecidableEq, Repr

/-- The string a `StepType` interpolates to in JS (template literals, `===` comparisons). -/
def StepType.toStr : StepType → String
  | .navigate => "navigate"
  | .click => "click"
  | .fill => "fill"
  | .wait => "wait"
  | .waitForPageLoad => "waitForPageLoad"
  | .verifyElement => "verifyElement"
  | .assert => "assert"
  | .custom => "custom"
  | .api_call => "api_call"

instance : BEq StepType := ⟨fun a b => decide (a = b)⟩

/-- The `TestStep` interface: `id`, `type`, a required `description`, and
optional payload fields. -/
structure Step where
  id : String
  type : StepType
  url : Option String := none
  selector : Option String := none
  value : Option String := none
  action : Option String := none
  description : String := ""
  method : Option String := none
  headers : Option String := none
  body : Option String := none
  expectedStatus : Option String := none
  deriving DecidableEq, Repr

/-! ## URL resolution (`getFullUrl` in part_007, `resolveUrl` in BrowserTestRunner.tsx) -/

/-- JS `base.replace(/\/+$/, '')`: strip the maximal trailing run of slashes. -/
def stripTrailingSlashes (s : String) : String :=
  ((s.toList.reverse.dropWhile (fun c => c == '/')).reverse).asString

/-- `getFullUrl` from `generateStepCode` (part_007 lines 72-81): absolute URLs
pass through; a relative URL is appended (with a leading slash ensured) to the
base (`baseUrl || 'https://staging.joinsucceed.ai'`) with trailing slashes
stripped. -/
def getFullUrl (baseUrl : Option String) (url : String) : String :=
  if jsStartsWith url "http://" || jsStartsWith url "https://" then url
  else
    let base := jsOrStr baseUrl "https://staging.joinsucceed.ai"
    let cleanBase := stripTrailingSlashes base
    let cleanUrl := if jsStartsWith url "/" then url else "/" ++ url
    cleanBase ++ cleanUrl

/-- `resolveUrl` from `BrowserTestRunner.tsx` (lines 91-103); identical to
`getFullUrl` except the base is `testCase.baseUrl || testCase.targetPageUrl ||
'https://staging.joinsucceed.ai'`. -/
def resolveUrl (baseUrl targetPageUrl : Option String) (url : String) : String :=
  if jsStartsWith url "http://" || jsStartsWith url "https://" then url
  else
    let base := jsOrStr baseUrl (jsOrStr targetPageUrl "https://staging.joinsucceed.ai")
    let cleanBase := stripTrailingSlashes base
    let cleanUrl := if jsStartsWith url "/" then url else "/" ++ url
    cleanBase ++ cleanUrl

/-! ## JSON (platform `JSON.parse` / `JSON.stringify`)

`JSON.parse` and `JSON.stringify` are browser built-ins, not repository code.
They are modelled here by a fuel-based recursive-descent parser for the JSON
grammar (numbers keep their source lexeme; serialisation re-emits it) and a
structural serialiser.  `jsonParse s = none` models `JSON.parse(s)` throwing. -/

inductive Json where
  | null
  | bool (b : Bool)
  | num (lexeme : String)
  | str (s : String)
  | arr (elems : List Json)
  | obj (members : List (String × Json))

/-- JSON insignificant whitespace (RFC 8259). -/
def jsonWs (c : Char) : Bool :=
  c.toNat == 32 || c.toNat == 9 || c.toNat == 10 || c.toNat == 13

def hexDigit? (c : Char) : Option Nat :=
  let n := c.toNat
  if 48 ≤ n && n ≤ 57 then some (n - 48)
  else if 97 ≤ n && n ≤ 102 then some (n - 87)
  else if 65 ≤ n && n ≤ 70 then some (n - 55)
  else none

/-- Parse the rest of a JSON string literal (after the opening quote). -/
def parseStringRest : Nat → List Char → Option (String × List Char)
  | 0, _ => none
  | _ + 1, [] => none
  | fuel + 1, c :: cs =>
    if c == '"' then some ("", cs)
    else if c == '\\' then
      match cs with
      | [] => none
      | e :: cs2 =>
        let dec : Option (Char × List Char) :=
          if e == '"' then some ('"', cs2)
          else if e == '\\' then some ('\\', cs2)
          else if e == '/' then some ('/', cs2)
          else if e == 'b' then some ('\x08', cs2)
          else if e == 'f' then some ('\x0c', cs2)
          else if e == 'n' then some ('\n', cs2)
          else if e == 'r' then some ('\r', cs2)
          else if e == 't' then some ('\t', cs2)
          else if e == 'u' then
            match cs2 with
            | h1 :: h2 :: h3 :: h4 :: cs3 =>
              match hexDigit? h1, hexDigit? h2, hexDigit? h3, hexDigit? h4 with
              | some a, some b, some c3, some d =>
                some (Char.ofNat (((a * 16 + b) * 16 + c3) * 16 + d), cs3)
              | _, _, _, _ => none
            | _ => none
          else none
        match dec with
        | some (ch, rest) =>
          match parseStringRest fuel rest with
          | some (s, r) => some (String.singleton ch ++ s, r)
          | none => none
        | none => none
    else if c.toNat < 32 then none
    else
      match parseStringRest fuel cs with
      | some (s, r) => some (String.singleton c ++ s, r)
      | none => none

def isDigit19 (c : Char) : Bool := '1' ≤ c && c ≤ '9'

/-- Parse a JSON number, returning its lexeme. -/
def parseNumber (l : List Char) : Option (String × List Char) := do
  let (sign, l1) := if l.head? == some '-' then (['-'], l.tail) else ([], l)
  let (ip, l2) ←
    match l1 with
    | '0' :: r => some (['0'], r)
    | c :: r =>
      if isDigit19 c then
        let ds := r.takeWhile Char.isDigit
        some (c :: ds, r.drop ds.length)
      else none
    | [] => none
  let (fp, l3) ←
    match l2 with
    | '.' :: r =>
      let ds := r.takeWhile Char.isDigit
      if ds.isEmpty then none else some ('.' :: ds, r.drop ds.length)
    | _ => some ([], l2)
  let (ep, l4) ←
    match l3 with
    | e :: r =>
      if e == 'e' || e == 'E' then
        let (es, r1) :=
          match r with
          | s :: r2 => if s == '+' || s == '-' then ([e, s], r2) else ([e], r)
          | [] => ([e], r)
        let ds := r1.takeWhile Char.isDigit
        if ds.isEmpty then none else some (es ++ ds, r1.drop ds.length)
      else some ([], l3)
    | [] => some ([], l3)
  some ((sign ++ ip ++ fp ++ ep).asString, l4)

mutual

/-- Parse one JSON value from the head of the input (no leading whitespace). -/
def parseValue : Nat → List Char → Option (Json × List Char)
  | 0, _ => none
  | _ + 1, [] => none
  | fuel + 1, c :: cs =>
    if c == '{' then
      match parseObjBody fuel (cs.dropWhile jsonWs) with
      | some (ms, r) => some (Json.obj ms, r)
      | none => none
    else if c == '[' then
      match parseArrBody fuel (cs.dropWhile jsonWs) with
      | some (vs, r) => some (Json.arr vs, r)
      | none => none
    else if c == '"' then
      match parseStringRest (fuel + 1) cs with
      | some (s, r) => some (Json.str s, r)
      | none => none
    else if "true".toList.isPrefixOf (c :: cs) then some (Json.bool true, (c :: cs).drop 4)
    else if "false".toList.isPrefixOf (c :: cs) then some (Json.bool false, (c :: cs).drop 5)
    else if "null".toList.isPrefixOf (c :: cs) then some (Json.null, (c :: cs).drop 4)
    else
      match parseNumber (c :: cs) with
      | some (lex, r) => some (Json.num lex, r)
      | none => none

/-- Parse an array body after `[` (leading whitespace dropped). -/
def parseArrBody : Nat → List Char → Option (List Json × List Char)
  | 0, _ => none
  | fuel + 1, l =>
    match l with
    | ']' :: r => some ([], r)
    | _ => parseElems fuel l

/-- Parse one-or-more comma-separated array elements and the closing `]`. -/
def parseElems : Nat → List Char → Option (List Json × List Char)
  | 0, _ => none
  | fuel + 1, l =>
    match parseValue fuel l with
    | some (v, r) =>
      match r.dropWhile jsonWs with
      | ',' :: r2 =>
        match parseElems fuel (r2.dropWhile jsonWs) with
        | some (vs, r3) => some (v :: vs, r3)
        | none => none
      | ']' :: r2 => some ([v], r2)
      | _ => none
    | none => none

/-- Parse an object body after `{` (leading whitespace dropped). -/
def parseObjBody : Nat → List Char → Option (List (String × Json) × List Char)
  | 0, _ => none
  | fuel + 1, l =>
    match l with
    | '}' :: r => some ([], r)
    | _ => parseMembers fuel l

/-- Parse one-or-more comma-separated `"key": value` members and the closing `}`. -/
def parseMembers : Nat → List Char → Option (List (String × Json) × List Char)
  | 0, _ => none
  | fuel + 1, l =>
    match l with
    | '"' :: cs =>
      match parseStringRest (fuel + 1) cs with
      | some (k, r) =>
        match r.dropWhile jsonWs with
        | ':' :: r2 =>
          match parseValue fuel (r2.dropWhile jsonWs) with
          | some (v, r3) =>
            match r3.dropWhile jsonWs with
            | ',' :: r4 =>
              match parseMembers fuel (r4.dropWhile jsonWs) with
              | some (ms, r5) => some ((k, v) :: ms, r5)
              | none => none
            | '}' :: r4 => some ([(k, v)], r4)
            | _ => none
          | none => none
        | _ => none
      | none => none
    | _ => none

end

/-- Model of `JSON.parse`: `none` models a thrown `SyntaxError`. -/
def jsonParse (s : String) : Option Json :=
  match parseValue (3 * s.toList.length + 3) (s.toList.dropWhile jsonWs) with
  | some (v, rest) => if (rest.dropWhile jsonWs).isEmpty then some v else none
  | none => none

/-- Serialise a string with the escapes `JSON.stringify` emits. -/
def jsonEscapeChar (c : Char) : String :=
  if c == '"' then "\\\""
  else if c == '\\' then "\\\\"
  else if c == '\n' then "\\n"
  else if c == '\r' then "\\r"
  else if c == '\t' then "\\t"
  else if c == '\x08' then "\\b"
  else if c == '\x0c' then "\\f"
  else String.singleton c

mutual

/-- Model of `JSON.stringify` on parsed JSON values (numbers re-emit their lexeme). -/
def jsonStringify : Json → String
  | .null => "null"
  | .bool true => "true"
  | .bool false => "false"
  | .num lex => lex
  | .str s => "\"" ++ String.join (s.toList.map jsonEscapeChar) ++ "\""
  | .arr vs => "[" ++ String.intercalate "," (jsonStringifyList vs) ++ "]"
  | .obj ms => "\x7b" ++ String.intercalate "," (jsonStringifyMembers ms) ++ "\x7d"

def jsonStringifyList : List Json → List String
  | [] => []
  | v :: vs => jsonStringify v :: jsonStringifyList vs

def jsonStringifyMembers : List (String × Json) → List String
  | [] => []
  | (k, v) :: ms =>
    ("\"" ++ String.join (k.toList.map jsonEscapeChar) ++ "\":" ++ jsonStringify v) ::
      jsonStringifyMembers ms

end

/-- JS truthiness of a `JSON.parse` result (`null`, `false`, `0`, `""` are falsy). -/
def jsonTruthy : Json → Bool
  | .null => false
  | .bool b => b
  | .str s => !(s == "")
  | .num lex =>
    -- a valid JSON number is 0 iff every mantissa digit is 0
    !(((lex.toList.takeWhile (fun c => !(c == 'e' || c == 'E'))).filter Char.isDigit).all
        (fun c => c == '0'))
  | .arr _ => true
  | .obj _ => true

/-- JS `Object.keys(x).length`; `Object.keys(null)` throws a `TypeError`. -/
def jsObjectKeysLength : Json → Except String Nat
  | .null => .error "TypeError: Cannot convert undefined or null to object"
  | .obj ms => .ok ms.length
  | .arr vs => .ok vs.length
  | .str s => .ok s.length
  | _ => .ok 0

/-! ## Code Emitter: `generateStepCode` (part_007 lines 63-238) -/

/-- The selector classification ternary repeated in every selenium branch:
`#` yields `By.id`, `.` yields `By.className`, anything else `By.css`. -/
def seleniumByMethod (selector : String) : String :=
  if jsStartsWith selector "#" then
    "By.id(\x27" ++ selector.drop 1 ++ "\x27)"
  else if jsStartsWith selector "." then
    "By.className(\x27" ++ selector.drop 1 ++ "\x27)"
  else
    "By.css(\x27" ++ selector ++ "\x27)"

/-- `step.action || step.description`, the condition/code text of assert and custom steps. -/
def condOf (step : Step) : String :=
  jsOrStr step.action step.description

/-- The selenium per-step translation (the source's `typescript` and
`javascript` arms are textually identical); `none` models falling through to
the final comment line. -/
def seleniumStepCode (step : Step) (elementVarName : String) (baseUrl : Option String) :
    Option String :=
  let indent := "      "
  if step.type == .navigate && jsTruthy step.url then
    some (indent ++ "await driver.get(\x27" ++ getFullUrl baseUrl (jsOrStr step.url "") ++ "\x27)")
  else if step.type == .click && jsTruthy step.selector then
    some (indent ++ "await driver.findElement(" ++ seleniumByMethod ((step.selector).getD "") ++ ").click()")
  else if step.type == .fill && jsTruthy step.selector && jsTruthy step.value then
    some (indent ++ "await driver.findElement(" ++ seleniumByMethod ((step.selector).getD "") ++
      ").sendKeys(\x27" ++ (step.value).getD "" ++ "\x27)")
  else if step.type == .wait && jsTruthy step.selector then
    some (indent ++ "await driver.wait(until.elementLocated(" ++
      seleniumByMethod ((step.selector).getD "") ++ "), 10000)")
  else if step.type == .waitForPageLoad then
    some (indent ++
      "await driver.wait(async () => await driver.executeScript(\x27return document.readyState\x27) === \x27complete\x27, 10000)")
  else if step.type == .verifyElement && jsTruthy step.selector then
    some (indent ++ "const " ++ elementVarName ++ " = await driver.findElement(" ++
      seleniumByMethod ((step.selector).getD "") ++ ")\n" ++ indent ++
      "expect(await " ++ elementVarName ++ ".isDisplayed()).to.be.true")
  else if step.type == .assert && !(condOf step == "") then
    some (indent ++ "expect(" ++ condOf step ++ ").to.be.true")
  else if step.type == .custom && !(condOf step == "") then
    some (indent ++ condOf step)
  else none

/-- The playwright per-step translation. -/
def playwrightStepCode (step : Step) (baseUrl : Option String) : Option String :=
  let indent := "      "
  if step.type == .navigate && jsTruthy step.url then
    some (indent ++ "await page.goto(\x27" ++ getFullUrl baseUrl (jsOrStr step.url "") ++ "\x27)")
  else if step.type == .click && jsTruthy step.selector then
    some (indent ++ "await page.click(\x27" ++ (step.selector).getD "" ++ "\x27)")
  else if step.type == .fill && jsTruthy step.selector && jsTruthy step.value then
    some (indent ++ "await page.fill(\x27" ++ (step.selector).getD "" ++ "\x27, \x27" ++
      (step.value).getD "" ++ "\x27)")
  else if step.type == .wait && jsTruthy step.selector then
    some (indent ++ "await page.waitForSelector(\x27" ++ (step.selector).getD "" ++ "\x27)")
  else if step.type == .waitForPageLoad then
    let loadState := jsOrStr step.action (if step.description == "" then "networkidle" else step.description)
    some (indent ++ "await page.waitForLoadState(\x27" ++ loadState ++ "\x27)")
  else if step.type == .verifyElement && jsTruthy step.selector then
    some (indent ++ "await expect(page.locator(\x27" ++ (step.selector).getD "" ++ "\x27)).toBeVisible()")
  else if step.type == .assert && !(condOf step == "") then
    some (indent ++ "expect(" ++ condOf step ++ ").toBeTruthy()")
  else if step.type == .custom && !(condOf step == "") then
    some (indent ++ condOf step)
  else none

/-- The cypress per-step translation. -/
def cypressStepCode (step : Step) (baseUrl : Option String) : Option String :=
  let indent := "      "
  if step.type == .navigate && jsTruthy step.url then
    some (indent ++ "cy.visit(\x27" ++ getFullUrl baseUrl (jsOrStr step.url "") ++ "\x27)")
  else if step.type == .click && jsTruthy step.selector then
    some (indent ++ "cy.get(\x27" ++ (step.selector).getD "" ++ "\x27).click()")
  else if step.type == .fill && jsTruthy step.selector && jsTruthy step.value then
    some (indent ++ "cy.get(\x27" ++ (step.selector).getD "" ++ "\x27).type(\x27" ++
      (step.value).getD "" ++ "\x27)")
  else if step.type == .wait && jsTruthy step.selector then
    some (indent ++ "cy.get(\x27" ++ (step.selector).getD "" ++ "\x27, \x7b timeout: 10000 \x7d)")
  else if step.type == .waitForPageLoad then
    some (indent ++ "cy.wait(1000) // Wait for page load")
  else if step.type == .verifyElement && jsTruthy step.selector then
    some (indent ++ "cy.get(\x27" ++ (step.selector).getD "" ++ "\x27).should(\x27be.visible\x27)")
  else if step.type == .assert && !(condOf step == "") then
    some (indent ++ "expect(" ++ condOf step ++ ").to.be.true")
  else if step.type == .custom && !(condOf step == "") then
    some (indent ++ condOf step)
  else none

/-- The pure (non-`api_call`) part of `generateStepCode`: the framework
dispatch, falling back to emitting the step description as a comment. -/
def generateStepCodePure (step : Step) (framework language : String)
    (elementVarName : String) (baseUrl : Option String) : String :=
  let indent := "      "
  let branch : Option String :=
    if framework == "selenium" then
      -- the source's typescript and javascript selenium arms are identical
      if language == "typescript" then seleniumStepCode step elementVarName baseUrl
      else seleniumStepCode step elementVarName baseUrl
    else if framework == "playwright" then playwrightStepCode step baseUrl
    else if framework == "cypress" then cypressStepCode step baseUrl
    else none
  branch.getD (indent ++ "// " ++ step.description)

/-- `JSON.parse` as the emitter observes it: a thrown `SyntaxError` is `.error`. -/
def jsonParseJs (s : String) : Except String Json :=
  match jsonParse s with
  | some v => .ok v
  | none => .error ("SyntaxError: Unexpected token in JSON: " ++ s)

/-- `generateStepCode(step, framework, language, stepIndex, baseUrl)`.
`randomSuffix` models `Math.random().toString(36).substring(2, 10)` (consulted
only when `stepIndex` is absent and `step.id` is falsy).  An `.error` result
models an uncaught exception propagating out of the function. -/
def generateStepCode (step : Step) (framework : String) (language : String := "typescript")
    (stepIndex : Option Nat := none) (baseUrl : Option String := none)
    (randomSuffix : String := "rnd0") : Except String String :=
  let elementVarName : String :=
    match stepIndex with
    | some i => "element" ++ toString i
    | none =>
      if !(step.id == "") then
        "element" ++ ((step.id.toList.filter Char.isAlphanum).take 8).asString
      else "element" ++ randomSuffix
  if step.type == .api_call then do
    let method := jsOrStr step.method "GET"
    let url := jsOrStr step.url ""
    let headers ← if jsTruthy step.headers then jsonParseJs ((step.headers).getD "") else .ok (Json.obj [])
    let body ← if jsTruthy step.body then jsonParseJs ((step.body).getD "") else .ok Json.null
    let expectedStatus := jsOrStr step.expectedStatus "200"
    if framework == "jest" then
      let dbIndent := "    "
      let code := dbIndent ++ "const response = await fetch(\x27" ++ url ++ "\x27, \x7b\n" ++
        dbIndent ++ "  method: \x27" ++ method ++ "\x27,\n"
      let nKeys ← jsObjectKeysLength headers
      let code := if nKeys > 0 then
          code ++ dbIndent ++ "  headers: " ++ jsonStringify headers ++ ",\n"
        else code
      let code := if jsonTruthy body then
          code ++ dbIndent ++ "  body: JSON.stringify(" ++ jsonStringify body ++ "),\n"
        else code
      .ok (code ++ dbIndent ++ "\x7d)\n" ++ dbIndent ++ "expect(response.status).toBe(" ++
        expectedStatus ++ ")")
    else
      .ok ("// API Call: " ++ method ++ " " ++ url)
  else
    .ok (generateStepCodePure step framework language elementVarName baseUrl)

/-! ## Code Emitter: `formatExpectedResult` (inside `generateTestCode`, part_006) -/

/-- The whitespace class of the JS regex `\s` / `String.prototype.trim`
(common members; exotic Unicode spaces omitted). -/
def jsWsChar (c : Char) : Bool :=
  [32, 9, 10, 13, 11, 12, 0xa0, 0xfeff].contains c.toNat

/-- JS `String.prototype.trim`. -/
def jsTrim (s : String) : String :=
  (((s.toList.dropWhile jsWsChar).reverse.dropWhile jsWsChar).reverse).asString

def isIdentStart (c : Char) : Bool := c.isAlpha || c == '_' || c.toNat == 36

def isIdentChar (c : Char) : Bool := c.isAlphanum || c == '_' || c.toNat == 36

/-- The JS regex test `/^[a-zA-Z_$][a-zA-Z0-9_$]*\s*[!=<>]/` ("variable
comparison").  The three character classes are pairwise disjoint, so greedy
matching without backtracking decides the regex. -/
def matchComparison (l : List Char) : Bool :=
  match l with
  | [] => false
  | c :: rest =>
    isIdentStart c &&
      (match (rest.dropWhile isIdentChar).dropWhile jsWsChar with
       | [] => false
       | d :: _ => d == '!' || d == '=' || d == '<' || d == '>')

/-- The JS regex test `/^['"`]/` (string literal start). -/
def matchStringLit (l : List Char) : Bool :=
  match l with
  | [] => false
  | c :: _ => c.toNat == 39 || c.toNat == 34 || c.toNat == 96

/-- The `isValidExpression` heuristic of `formatExpectedResult`. -/
def isValidExpression (trimmed : String) : Bool :=
  jsStartsWith trimmed "true" ||
  jsStartsWith trimmed "false" ||
  jsStartsWith trimmed "page." ||
  jsStartsWith trimmed "driver." ||
  jsStartsWith trimmed "cy." ||
  jsStartsWith trimmed "await " ||
  jsStartsWith trimmed "expect(" ||
  matchComparison trimmed.toList ||
  matchStringLit trimmed.toList

/-- `formatExpectedResult` from `generateTestCode` (part_006): free prose
becomes the placeholder `true`; code-looking text is embedded trimmed. -/
def formatExpectedResult (expectedResult : String) : String :=
  if expectedResult == "" || jsTrim expectedResult == "" then "true"
  else
    let trimmed := jsTrim expectedResult
    if isValidExpression trimmed then trimmed
    else "true"

/-! ## Live Execution Engine (`BrowserTestRunner.tsx`) -/

/-- The per-step state machine of the live engine. -/
inductive Status where
  | pending | running | passed | failed
  deriving DecidableEq, Repr

/-- One entry of the `results` state array. -/
structure TestResult where
  step : String
  status : Status
  message : Option String := none
  duration : Option Nat := none
  deriving DecidableEq, Repr

/-- The value `executeStep` resolves with, abstracted as an oracle outcome;
`duration` is the measured wall time the loop attaches. -/
structure ExecResult where
  success : Bool
  message : String
  duration : Nat
  deriving DecidableEq, Repr

/-- `parseSteps` (BrowserTestRunner.tsx lines 27-53): the first transported
string is attempted as a serialized step array when it starts with `[` or `{`;
everything else yields no structured steps.  The source's `try`/`catch` make
the function total. -/
def parseSteps (steps : List String) : List Json :=
  match steps with
  | [] => []
  | firstStep :: _ =>
    if jsStartsWith firstStep "[" || jsStartsWith firstStep "\x7b" then
      match jsonParse firstStep with
      | some (Json.arr a) => a
      | _ => []
    else []

/-- An element handle, carrying what `executeStep` observes of it
(`offsetParent !== null` is the visibility probe of `verifyElement`). -/
structure Elem where
  offsetParentNull : Bool
  deriving DecidableEq, Repr

/-- The browser environment one `executeStep` call runs against.
`query sel` models `testWindow.document.querySelector(sel)` together with the
subsequent interaction: `.error m` is a thrown exception with message `m`,
`.ok none` is no match, `.ok (some el)` a found element. -/
structure ExecEnv where
  /-- `testWindow` is non-null. -/
  windowPresent : Bool
  /-- reading `testWindow.closed` throws (cross-origin). -/
  closedThrows : Bool
  /-- the value of `testWindow.closed` when readable. -/
  closedVal : Bool
  /-- reading `testWindow.location.href` succeeds (same-origin). -/
  canAccess : Bool
  /-- assigning `testWindow.location.href` throws. -/
  navSetThrows : Bool
  /-- reading `location.href` succeeds after the navigation settles. -/
  canAccessAfterNav : Bool
  query : String → Except String (Option Elem)

/-- `executeStep` (BrowserTestRunner.tsx lines 105-282). -/
def executeStep (env : ExecEnv) (baseUrl targetPageUrl : Option String) (step : Step) :
    ExecResult :=
  let fail (m : String) : ExecResult := ⟨false, m, 0⟩
  -- preamble: wait/waitForPageLoad need no window; navigate skips the closed
  -- probe; everything else checks the window and whether it is closed
  if step.type == .wait || step.type == .waitForPageLoad then
    execSwitch env baseUrl targetPageUrl step
  else if !env.windowPresent then fail "Test window is not available"
  else if step.type == .navigate then
    execSwitch env baseUrl targetPageUrl step
  else
    let isWindowClosed := if env.closedThrows then false else env.closedVal
    if isWindowClosed then fail "Test window was closed"
    else execSwitch env baseUrl targetPageUrl step
where
  /-- the `switch (step.type)` body, with `canAccessWindow` computed first. -/
  execSwitch (env : ExecEnv) (baseUrl targetPageUrl : Option String) (step : Step) :
      ExecResult :=
    let fail (m : String) : ExecResult := ⟨false, m, 0⟩
    let pass (m : String) : ExecResult := ⟨true, m, 0⟩
    let canAccessWindow := env.windowPresent && env.canAccess
    match step.type with
    | .navigate =>
      if !env.windowPresent then fail "Test window is not available"
      else if jsTruthy step.url then
        let fullUrl := resolveUrl baseUrl targetPageUrl ((step.url).getD "")
        if env.navSetThrows then
          pass ("Navigation attempted to " ++ fullUrl ++
            " (cross-origin - watch the test window to verify)")
        else if env.canAccessAfterNav then pass ("Navigated to " ++ fullUrl)
        else pass ("Navigated to " ++ fullUrl ++ " (cross-origin - watch the test window)")
      else fail "No URL provided"
    | .waitForPageLoad =>
      if !canAccessWindow then pass "Waiting for page load (cross-origin - watch the test window)"
      else pass "Page loaded"
    | .wait =>
      if jsTruthy step.selector then
        if !canAccessWindow then
          pass ("Waited for " ++ (step.selector).getD "" ++ " (cross-origin - watch the test window)")
        else pass ("Waited for " ++ (step.selector).getD "")
      else fail "No selector provided"
    | .click =>
      if !env.windowPresent then fail "Test window is not available"
      else if jsTruthy step.selector then
        if !canAccessWindow then
          fail "Cannot access window (cross-origin). Please verify manually in the test window."
        else
          match env.query ((step.selector).getD "") with
          | .ok (some _) => pass ("Clicked " ++ (step.selector).getD "")
          | .ok none => fail ("Element not found: " ++ (step.selector).getD "")
          | .error e => fail ("Error clicking: " ++ e)
      else fail "No selector provided"
    | .fill =>
      if !env.windowPresent then fail "Test window is not available"
      else if jsTruthy step.selector && jsTruthy step.value then
        if !canAccessWindow then
          fail "Cannot access window (cross-origin). Please fill manually in the test window."
        else
          match env.query ((step.selector).getD "") with
          | .ok (some _) =>
            pass ("Filled " ++ (step.selector).getD "" ++ " with " ++ (step.value).getD "")
          | .ok none => fail ("Element not found: " ++ (step.selector).getD "")
          | .error e => fail ("Error filling: " ++ e)
      else fail "No selector or value provided"
    | .verifyElement =>
      if !env.windowPresent then fail "Test window is not available"
      else if jsTruthy step.selector then
        if !canAccessWindow then
          fail "Cannot verify element (cross-origin). Please verify manually in the test window."
        else
          match env.query ((step.selector).getD "") with
          | .ok (some el) =>
            if !el.offsetParentNull then
              pass ("Element found and visible: " ++ (step.selector).getD "")
            else fail ("Element not found or not visible: " ++ (step.selector).getD "")
          | .ok none => fail ("Element not found or not visible: " ++ (step.selector).getD "")
          | .error e => fail ("Error verifying: " ++ e)
      else fail "No selector provided"
    | .assert => pass (if step.description == "" then "Assertion passed" else step.description)
    | t => fail ("Unknown step type: " ++ t.toStr)

/-- The cross-origin qualification test of `runTest` (lines 388-390): the
failure is downgraded when its message mentions any of these fragments. -/
def isCrossOriginWarning (m : String) : Bool :=
  jsIncludes m "cross-origin" || jsIncludes m "watch the test window" ||
    jsIncludes m "manual verification"

/-- One `fetch('/api/test-executions', { method: 'POST', ... })` body:
an `appendExecution` call against the external record store. -/
structure Post where
  status : String
  totalSteps : Nat
  passedSteps : Nat
  failedSteps : Nat
  errorMessage : Option String
  stepResults : List TestResult
  deriving DecidableEq, Repr

/-- Everything one `runTest` invocation did that the claims observe. -/
structure RunOut where
  /-- the final `results` React state. -/
  state : List TestResult
  /-- the `appendExecution` POST bodies, in order. -/
  posts : List Post
  /-- the URL assigned to the window before the loop, when the up-front
  navigation happened. -/
  upfrontNav : Option String
  /-- indices `i` for which `executeStep(structuredSteps[i], i)` was invoked. -/
  executed : List Nat
  /-- the final `error` React state. -/
  error : Option String
  deriving DecidableEq, Repr

/-- The step loop of `runTest` (lines 365-438).  `state` is the live `results`
React state; `results0` is the stale closure snapshot the abort path maps over;
the returned `Option Post` is the abort-path save.  Per-step and inter-step
delays are timing only and are not modelled. -/
def runLoop (exec : Nat → ExecResult) (skipFirst : Bool) (results0 : List TestResult)
    (total : Nat) (b t : Option String) :
    List Step → Nat → List TestResult → List TestResult × List Nat × Option Post
  | [], _, state => (state, [], none)
  | st :: rest, i, state =>
    if skipFirst && i == 0 && st.type == .navigate then
      runLoop exec skipFirst results0 total b t rest (i + 1)
        (updAt state 0 (fun r =>
          { r with status := .passed,
                   message := some ("Already navigated to " ++
                     resolveUrl b t (jsOrStr st.url "")) }))
    else
      let r := exec i
      let state1 := updAt state i (fun tr => { tr with status := .running })
      let state2 := updAt state1 i (fun tr =>
        { tr with status := if r.success then .passed else .failed,
                  message := some r.message, duration := some r.duration })
      if !r.success && !isCrossOriginWarning r.message then
        let currentResults := updAt results0 i (fun tr =>
          { tr with status := if r.success then .passed else .failed,
                    message := some r.message, duration := some r.duration })
        (state2, [i],
          some { status := "failed", totalSteps := total,
                 passedSteps := (currentResults.filter (fun x => x.status == .passed)).length,
                 failedSteps := (currentResults.filter (fun x => x.status == .failed)).length,
                 errorMessage := some ("Test failed at step " ++ toString (i + 1) ++ ": " ++ r.message),
                 stepResults := currentResults })
      else
        let out := runLoop exec skipFirst results0 total b t rest (i + 1) state2
        (out.1, i :: out.2.1, out.2.2)

/-- Environment facts one `runTest` invocation observes, beyond the loop. -/
structure RunCfg where
  baseUrl : Option String
  targetPageUrl : Option String
  /-- `window.open` returned a window (popups not blocked). -/
  windowOpened : Bool
  /-- the up-front `newWindow.location.href = fullUrl` threw. -/
  upfrontNavThrows : Bool
  /-- message of that exception. -/
  upfrontNavErrMsg : String
  /-- `location.href` was still readable after the up-front navigation. -/
  accessibleAfterNav : Bool

/-- The `setResults` initialisation of line 293: one pending entry per step,
labelled `step.description || step.type`. -/
def initState (steps : List Step) : List TestResult :=
  steps.map (fun s =>
    ({ step := if s.description == "" then s.type.toStr else s.description,
       status := .pending } : TestResult))

/-- The completion-path save (lines 440-465): counts, final status and
`stepResults` are computed from the stale closure snapshot `results0`, and
`errorMessage` from the stale `error` closure value. -/
def completionPost (steps : List Step) (results0 : List TestResult)
    (errClosure : Option String) : Post :=
  let passedSteps := (results0.filter (fun r => r.status == .passed)).length
  let failedSteps := (results0.filter (fun r => r.status == .failed)).length
  let finalStatus := if failedSteps > 0 then "failed" else "passed"
  { status := finalStatus, totalSteps := steps.length,
    passedSteps := passedSteps, failedSteps := failedSteps,
    errorMessage := jsOrNull errClosure, stepResults := results0 }

/-- `runTest` (BrowserTestRunner.tsx lines 284-473).  `steps` is
`structuredSteps`; `exec i` is the outcome `executeStep(steps[i], i)` resolves
with; `results0` and `errClosure` are the `results`/`error` state values
captured by the closure at the render that created this `runTest` (the
functional `setResults(prev => ...)` updates act on the live state, but the
plain reads at lines 398, 443-444 and 462-463 see the stale snapshot). -/
def runTest (steps : List Step) (exec : Nat → ExecResult) (results0 : List TestResult)
    (errClosure : Option String) (cfg : RunCfg) : RunOut :=
  if steps.length == 0 then
    { state := results0, posts := [], upfrontNav := none, executed := [],
      error := some "No structured test steps found. This test case may need to be edited to include step-by-step instructions." }
  else
    let state1 := initState steps
    if !cfg.windowOpened then
      { state := state1, posts := [], upfrontNav := none, executed := [],
        error := some "Failed to open test window. Please allow popups for this site." }
    else
      let firstNavigateStep := steps.find? (fun s => s.type == .navigate && jsTruthy s.url)
      match firstNavigateStep with
      | some fstep =>
        let fullUrl := resolveUrl cfg.baseUrl cfg.targetPageUrl ((fstep.url).getD "")
        if cfg.upfrontNavThrows then
          { state := state1, posts := [], upfrontNav := some fullUrl, executed := [],
            error := some ("Failed to navigate: " ++ cfg.upfrontNavErrMsg) }
        else
          let coNote : Option String :=
            if cfg.accessibleAfterNav then none
            else some "Note: Test window navigated to a different origin. Some automated steps may require manual verification."
          let out := runLoop exec true results0 steps.length cfg.baseUrl cfg.targetPageUrl steps 0 state1
          runTestFinish steps results0 errClosure (some fullUrl) coNote out
      | none =>
        let out := runLoop exec false results0 steps.length cfg.baseUrl cfg.targetPageUrl steps 0 state1
        runTestFinish steps results0 errClosure none none out
where
  /-- the code after the loop: the abort return, or the completion save
  (lines 440-469), whose counts and `stepResults` read the stale `results`. -/
  runTestFinish (steps : List Step) (results0 : List TestResult)
      (errClosure : Option String) (upfrontNav : Option String) (liveError : Option String)
      (out : List TestResult × List Nat × Option Post) : RunOut :=
    match out.2.2 with
    | some p =>
      { state := out.1, posts := [p], upfrontNav := upfrontNav, executed := out.2.1,
        error := p.errorMessage }
    | none =>
      { state := out.1,
        posts := [completionPost steps results0 errClosure],
        upfrontNav := upfrontNav, executed := out.2.1, error := liveError }

/-! ## Loop invariants of `runTest` -/

/-- A result entry consistent with the loop having continued past it: if it is
failed, its failure message is cross-origin-qualified. -/
def okEntry (r : TestResult) : Prop :=
  r.status = .failed → ∃ m, r.message = some m ∧ isCrossOriginWarning m = true

/-- An entry the loop has fully processed without aborting. -/
def doneEntry (r : TestResult) : Prop :=
  r.status ≠ .pending ∧ okEntry r

/-- What `runLoop`, started at index `i` over a state of length `n`, returns:
either no abort and every entry processed, or an abort at an index `k ≥ i`
holding the unique non-cross-origin failure, with everything after `k` still
pending and everything before `k` processed. -/
def loopInv (i n : Nat) (out : List TestResult × List Nat × Option Post) : Prop :=
  out.1.length = n ∧
  (match out.2.2 with
   | none => ∀ (j : Nat) (r : TestResult), out.1[j]? = some r → doneEntry r
   | some p =>
     p.status = "failed" ∧
     ∃ (k : Nat) (rk : TestResult), i ≤ k ∧ out.1[k]? = some rk ∧ rk.status = .failed ∧
       (∃ m, rk.message = some m ∧ isCrossOriginWarning m = false) ∧
       (∀ (j : Nat) (r : TestResult), k < j → out.1[j]? = some r → r.status = .pending) ∧
       (∀ (j : Nat) (r : TestResult), j < k → out.1[j]? = some r → doneEntry r))

/-- The `loopInv` result of a recursive call, started one index further,
weakens to the invariant for the enclosing index. -/
theorem loopInv_weaken (i n : Nat) (out : List TestResult × List Nat × Option Post)
    (h : loopInv (i + 1) n out) : loopInv i n out := by
  rcases h with ⟨h1, h2⟩
  refine ⟨h1, ?_⟩
  match hout : out.2.2 with
  | none => rw [hout] at h2; exact h2
  | some p =>
    rw [hout] at h2
    rcases h2 with ⟨hp, k, rk, hk, hrest⟩
    exact ⟨hp, k, rk, by omega, hrest⟩

theorem runLoop_spec (exec : Nat → ExecResult) (skipFirst : Bool)
    (results0 : List TestResult) (total : Nat) (b t : Option String) :
    ∀ (rest : List Step) (i : Nat) (state : List TestResult),
    i + rest.length = state.length →
    (∀ (j : Nat) (r : TestResult), i ≤ j → state[j]? = some r → r.status = .pending) →
    (∀ (j : Nat) (r : TestResult), j < i → state[j]? = some r → doneEntry r) →
    loopInv i state.length (runLoop exec skipFirst results0 total b t rest i state) := by
  intro rest
  induction rest with
  | nil =>
    intro i state hLen hInv1 hInv2
    simp only [List.length_nil] at hLen
    refine ⟨rfl, ?_⟩
    show ∀ (j : Nat) (r : TestResult), state[j]? = some r → doneEntry r
    intro j r hj
    have hjlt : j < state.length := (List.getElem?_eq_some.mp hj).1
    exact hInv2 j r (by omega) hj
  | cons st rest ih =>
    intro i state hLen hInv1 hInv2
    simp only [List.length_cons] at hLen
    have hilt : i < state.length := by omega
    rw [runLoop]
    by_cases hskip : (skipFirst && i == 0 && st.type == .navigate) = true
    · -- navigation-skip branch: mark index 0 passed and continue
      rw [if_pos hskip]
      have hi0 : i = 0 := by
        have := (Bool.and_eq_true _ _ |>.mp (Bool.and_eq_true _ _ |>.mp hskip).1).2
        simpa using this
      subst hi0
      set f : TestResult → TestResult := fun r =>
        { r with status := .passed,
                 message := some ("Already navigated to " ++ resolveUrl b t (jsOrStr st.url "")) } with hf
      have hmain := ih 1 (updAt state 0 f)
        (by rw [updAt_length]; omega)
        (by
          intro j r hj hjr
          have hne : j ≠ 0 := by omega
          rw [getElem?_updAt_ne _ _ _ _ hne] at hjr
          exact hInv1 j r (by omega) hjr)
        (by
          intro j r hj hjr
          have hj0 : j = 0 := by omega
          subst hj0
          rw [getElem?_updAt_eq] at hjr
          obtain ⟨r0, hr0⟩ : ∃ r0, state[0]? = some r0 :=
            ⟨state.get ⟨0, by omega⟩, by simp [List.getElem?_eq_getElem (by omega : 0 < state.length)]⟩
          rw [hr0] at hjr
          have hrf : r = f r0 := by simpa using hjr.symm
          subst hrf
          exact ⟨by simp [hf], by intro hfail; simp [hf] at hfail⟩)
      rw [updAt_length] at hmain
      exact loopInv_weaken 0 state.length _ hmain
    · -- ordinary iteration
      rw [if_neg hskip]
      show loopInv i state.length
        (let r := exec i
         let state1 := updAt state i (fun tr => { tr with status := .running })
         let state2 := updAt state1 i (fun tr =>
           { tr with status := if r.success then .passed else .failed,
                     message := some r.message, duration := some r.duration })
         if !r.success && !isCrossOriginWarning r.message then
           let currentResults := updAt results0 i (fun tr =>
             { tr with status := if r.success then .passed else .failed,
                       message := some r.message, duration := some r.duration })
           (state2, [i],
             some { status := "failed", totalSteps := total,
                    passedSteps := (currentResults.filter (fun x => x.status == .passed)).length,
                    failedSteps := (currentResults.filter (fun x => x.status == .failed)).length,
                    errorMessage := some ("Test failed at step " ++ toString (i + 1) ++ ": " ++ r.message),
                    stepResults := currentResults })
         else
           let out := runLoop exec skipFirst results0 total b t rest (i + 1) state2
           (out.1, i :: out.2.1, out.2.2))
      set r := exec i with hr
      set f1 : TestResult → TestResult := fun tr => { tr with status := .running } with hf1
      set f2 : TestResult → TestResult := fun tr =>
        { tr with status := if r.success then .passed else .failed,
                  message := some r.message, duration := some r.duration } with hf2
      set state2 := updAt (updAt state i f1) i f2 with hstate2
      have hlen2 : state2.length = state.length := by simp [hstate2]
      obtain ⟨r0, hr0⟩ : ∃ r0, state[i]? = some r0 :=
        ⟨state.get ⟨i, hilt⟩, by simp [List.getElem?_eq_getElem hilt]⟩
      have hst2i : state2[i]? = some (f2 (f1 r0)) := by
        rw [hstate2, getElem?_updAt_eq, getElem?_updAt_eq, hr0]; rfl
      have hst2ne : ∀ j, j ≠ i → state2[j]? = state[j]? := by
        intro j hj
        rw [hstate2, getElem?_updAt_ne _ _ _ _ hj, getElem?_updAt_ne _ _ _ _ hj]
      by_cases habort : (!r.success && !isCrossOriginWarning r.message) = true
      · -- abort: non-cross-origin failure at i
        rw [if_pos habort]
        have hsucc : r.success = false := by
          have := (Bool.and_eq_true _ _ |>.mp habort).1; simpa using this
        have hco : isCrossOriginWarning r.message = false := by
          have := (Bool.and_eq_true _ _ |>.mp habort).2; simpa using this
        refine ⟨by simp [hlen2], rfl, i, f2 (f1 r0), le_refl i, hst2i, ?_, ?_, ?_, ?_⟩
        · simp [hf2, hsucc]
        · exact ⟨r.message, by simp [hf2], hco⟩
        · intro j rj hj hjr
          rw [hst2ne j (by omega)] at hjr
          exact hInv1 j rj (by omega) hjr
        · intro j rj hj hjr
          rw [hst2ne j (by omega)] at hjr
          exact hInv2 j rj hj hjr
      · -- continue with the next step
        rw [if_neg habort]
        have hcont : r.success = true ∨ isCrossOriginWarning r.message = true := by
          rcases hs : r.success with _ | _
          · rcases hc : isCrossOriginWarning r.message with _ | _
            · exact absurd (by simp [hs, hc]) habort
            · exact Or.inr rfl
          · exact Or.inl rfl
        have hmain := ih (i + 1) state2
          (by rw [hlen2]; omega)
          (by
            intro j rj hj hjr
            rw [hst2ne j (by omega)] at hjr
            exact hInv1 j rj (by omega) hjr)
          (by
            intro j rj hj hjr
            by_cases hji : j = i
            · subst hji
              rw [hst2i] at hjr
              have hrj : rj = f2 (f1 r0) := by simpa using hjr.symm
              subst hrj
              constructor
              · rcases hs : r.success with _ | _ <;> simp [hf2, hs]
              · intro hfail
                refine ⟨r.message, by simp [hf2], ?_⟩
                rcases hcont with hs | hc
                · exfalso
                  simp [hf2, hs] at hfail
                · exact hc
            · rw [hst2ne j hji] at hjr
              exact hInv2 j rj (by omega) hjr)
        rw [hlen2] at hmain
        have hweak := loopInv_weaken i state.length _ hmain
        rcases hweak with ⟨h1, h2⟩
        exact ⟨h1, h2⟩

/-- `executeStep` is consulted only at indices from the current one onwards. -/
theorem runLoop_executed_ge (exec : Nat → ExecResult) (skipFirst : Bool)
    (results0 : List TestResult) (total : Nat) (b t : Option String) :
    ∀ (rest : List Step) (i : Nat) (state : List TestResult) (x : Nat),
    x ∈ (runLoop exec skipFirst results0 total b t rest i state).2.1 → i ≤ x := by
  intro rest
  induction rest with
  | nil => intro i state x hx; simp [runLoop] at hx
  | cons st rest ih =>
    intro i state x hx
    rw [runLoop] at hx
    by_cases hskip : (skipFirst && i == 0 && st.type == .navigate) = true
    · rw [if_pos hskip] at hx
      have hi0 : i = 0 := by
        have := (Bool.and_eq_true _ _ |>.mp (Bool.and_eq_true _ _ |>.mp hskip).1).2
        simpa using this
      omega
    · rw [if_neg hskip] at hx
      simp only at hx
      by_cases habort : (!(exec i).success && !isCrossOriginWarning (exec i).message) = true
      · rw [if_pos habort] at hx
        simp at hx
        omega
      · rw [if_neg habort] at hx
        simp only [List.mem_cons] at hx
        rcases hx with hx | hx
        · omega
        · have := ih (i + 1) _ x hx
          omega

/-- The loop never touches entries below its start index. -/
theorem runLoop_preserves_lt (exec : Nat → ExecResult) (skipFirst : Bool)
    (results0 : List TestResult) (total : Nat) (b t : Option String) :
    ∀ (rest : List Step) (i : Nat) (state : List TestResult) (j : Nat),
    j < i → (runLoop exec skipFirst results0 total b t rest i state).1[j]? = state[j]? := by
  intro rest
  induction rest with
  | nil => intro i state j hj; rfl
  | cons st rest ih =>
    intro i state j hj
    rw [runLoop]
    by_cases hskip : (skipFirst && i == 0 && st.type == .navigate) = true
    · rw [if_pos hskip]
      have hi0 : i = 0 := by
        have := (Bool.and_eq_true _ _ |>.mp (Bool.and_eq_true _ _ |>.mp hskip).1).2
        simpa using this
      omega
    · rw [if_neg hskip]
      simp only
      by_cases habort : (!(exec i).success && !isCrossOriginWarning (exec i).message) = true
      · rw [if_pos habort]
        simp only
        rw [getElem?_updAt_ne _ _ _ _ (by omega), getElem?_updAt_ne _ _ _ _ (by omega)]
      · rw [if_neg habort]
        simp only
        rw [ih (i + 1) _ j (by omega),
          getElem?_updAt_ne _ _ _ _ (by omega), getElem?_updAt_ne _ _ _ _ (by omega)]

@[simp] theorem initState_length (steps : List Step) :
    (initState steps).length = steps.length := by
  simp [initState]

theorem initState_pending (steps : List Step) (j : Nat) (r : TestResult)
    (h : (initState steps)[j]? = some r) : r.status = .pending := by
  rw [initState, List.getElem?_map] at h
  rcases hj : steps[j]? with _ | st
  · rw [hj] at h; cases h
  · rw [hj] at h
    have h2 : (some { step := if st.description == "" then st.type.toStr else st.description, status := .pending, message := none, duration := none } : Option TestResult) = some r := h
    injection h2 with h3
    rw [← h3]

/-- Every `runTest` run is one of: the empty-steps early return, an
environment-failure early return (blocked popup or a throwing up-front
navigation) with all entries pending and nothing persisted, or a main run
whose final state and single save come from `runLoop` /
the stale-snapshot completion save. -/
theorem runTest_cases (steps : List Step) (exec : Nat → ExecResult)
    (results0 : List TestResult) (errClosure : Option String) (cfg : RunCfg) :
    (steps.length = 0 ∧ (runTest steps exec results0 errClosure cfg).state = results0 ∧
      (runTest steps exec results0 errClosure cfg).posts = []) ∨
    ((runTest steps exec results0 errClosure cfg).state = initState steps ∧
      (runTest steps exec results0 errClosure cfg).posts = []) ∨
    (∃ skipFirst : Bool,
      (runTest steps exec results0 errClosure cfg).state =
        (runLoop exec skipFirst results0 steps.length cfg.baseUrl cfg.targetPageUrl
          steps 0 (initState steps)).1 ∧
      (runTest steps exec results0 errClosure cfg).posts =
        (match (runLoop exec skipFirst results0 steps.length cfg.baseUrl cfg.targetPageUrl
                  steps 0 (initState steps)).2.2 with
         | some p => [p]
         | none => [completionPost steps results0 errClosure])) := by
  rw [runTest]
  by_cases h0 : (steps.length == 0) = true
  · rw [if_pos h0]
    exact Or.inl ⟨by simpa using h0, rfl, rfl⟩
  · rw [if_neg h0]
    by_cases hw : cfg.windowOpened = true
    · simp only [hw, Bool.not_true, Bool.false_eq_true, if_false]
      rcases hfind : steps.find? (fun s => s.type == .navigate && jsTruthy s.url) with _ | fstep
      · refine Or.inr (Or.inr ⟨false, ?_⟩)
        rcases hlo : (runLoop exec false results0 steps.length cfg.baseUrl cfg.targetPageUrl
            steps 0 (initState steps)).2.2 with _ | p <;>
          simp [hfind, runTest.runTestFinish, hlo]
      · by_cases hthrow : cfg.upfrontNavThrows = true
        · refine Or.inr (Or.inl ?_)
          rw [hfind]
          simp only [hthrow, if_true]
          constructor <;> trivial
        · refine Or.inr (Or.inr ⟨true, ?_⟩)
          rcases hlo : (runLoop exec true results0 steps.length cfg.baseUrl cfg.targetPageUrl
              steps 0 (initState steps)).2.2 with _ | p <;>
            simp [hfind, hthrow, runTest.runTestFinish, hlo]
    · have hw' : cfg.windowOpened = false := by
        rcases h : cfg.windowOpened with _ | _
        · rfl
        · exact absurd h hw
      refine Or.inr (Or.inl ?_)
      simp only [hw', Bool.not_false, if_true]
      constructor <;> trivial

/-- The loop invariant instantiated at the top of a main run. -/
theorem runTest_loopInv (steps : List Step) (exec : Nat → ExecResult)
    (results0 : List TestResult) (skipFirst : Bool) (b t : Option String) :
    loopInv 0 steps.length
      (runLoop exec skipFirst results0 steps.length b t steps 0 (initState steps)) := by
  have h := runLoop_spec exec skipFirst results0 steps.length b t steps 0 (initState steps)
    (by simp) (fun j r _ hj => initState_pending steps j r hj) (fun j r hj _ => absurd hj (by omega))
  rwa [initState_length] at h

/-! ## The claims -/

/-- Claim C1: in the Live Execution Engine, for every step sequence, if the
step at position `i` fails with a message that is not cross-origin-qualified,
the run stops immediately — every step at a position greater than `i` remains
`pending`, and exactly one `appendExecution` POST is made, with status
`"failed"`. -/
theorem runTest_hard_failure_aborts (steps : List Step) (exec : Nat → ExecResult)
    (results0 : List TestResult) (errClosure : Option String) (cfg : RunCfg)
    (i : Nat) (ri : TestResult) (m : String)
    (hi : i < steps.length)
    (hri : (runTest steps exec results0 errClosure cfg).state[i]? = some ri)
    (hst : ri.status = .failed)
    (hm : ri.message = some m)
    (hco : isCrossOriginWarning m = false) :
    (∃ p : Post, (runTest steps exec results0 errClosure cfg).posts = [p] ∧
      p.status = "failed") ∧
    (∀ (j : Nat) (rj : TestResult), i < j →
      (runTest steps exec results0 errClosure cfg).state[j]? = some rj →
      rj.status = .pending) := by
  rcases runTest_cases steps exec results0 errClosure cfg with
    ⟨h0, _, _⟩ | ⟨hstate, _⟩ | ⟨sf, hstate, hposts⟩
  · omega
  · rw [hstate] at hri
    exact absurd (initState_pending steps i ri hri) (by rw [hst]; intro h; cases h)
  · rcases runTest_loopInv steps exec results0 sf cfg.baseUrl cfg.targetPageUrl with ⟨_, hinv⟩
    rw [hstate] at hri
    rcases hlo : (runLoop exec sf results0 steps.length cfg.baseUrl cfg.targetPageUrl
        steps 0 (initState steps)).2.2 with _ | p
    · rw [hlo] at hinv
      rcases (hinv i ri hri).2 hst with ⟨m2, hm2, hco2⟩
      rw [hm] at hm2
      injection hm2 with hm3
      rw [← hm3] at hco2
      rw [hco2] at hco
      cases hco
    · rw [hlo] at hinv
      rcases hinv with ⟨hp, k, rk, _, hrk, hrkst, ⟨m2, hm2, hco2⟩, hafter, hbefore⟩
      have hik : i = k := by
        rcases Nat.lt_trichotomy i k with hlt | heq | hgt
        · rcases (hbefore i ri hlt hri).2 hst with ⟨m3, hm3, hco3⟩
          rw [hm] at hm3
          injection hm3 with hm4
          rw [← hm4] at hco3
          rw [hco3] at hco
          cases hco
        · exact heq
        · have := hafter i ri hgt hri
          rw [hst] at this
          cases this
      subst hik
      rw [hlo] at hposts
      refine ⟨⟨p, hposts, hp⟩, ?_⟩
      intro j rj hj hjr
      rw [hstate] at hjr
      exact hafter j rj hj hjr

/-- Claim C2: in the Live Execution Engine, a step failure at position `i`
whose message is cross-origin-qualified does not halt the execution loop —
the next step still transitions out of `pending`, and (when no step of the run
fails with a non-cross-origin message) every step after `i` transitions out of
`pending`. -/
theorem runTest_crossOrigin_failure_continues (steps : List Step)
    (exec : Nat → ExecResult) (results0 : List TestResult) (errClosure : Option String)
    (cfg : RunCfg) (i : Nat) (ri : TestResult) (m : String)
    (hi : i < steps.length)
    (hri : (runTest steps exec results0 errClosure cfg).state[i]? = some ri)
    (hst : ri.status = .failed)
    (hm : ri.message = some m)
    (hco : isCrossOriginWarning m = true) :
    (∀ rj : TestResult, (runTest steps exec results0 errClosure cfg).state[i + 1]? = some rj →
      rj.status ≠ .pending) ∧
    ((∀ (j : Nat) (rj : TestResult) (m2 : String),
        (runTest steps exec results0 errClosure cfg).state[j]? = some rj →
        rj.status = .failed → rj.message = some m2 → isCrossOriginWarning m2 = true) →
      ∀ (j : Nat) (rj : TestResult), i < j →
        (runTest steps exec results0 errClosure cfg).state[j]? = some rj →
        rj.status ≠ .pending) := by
  rcases runTest_cases steps exec results0 errClosure cfg with
    ⟨h0, _, _⟩ | ⟨hstate, _⟩ | ⟨sf, hstate, _⟩
  · omega
  · rw [hstate] at hri
    exact absurd (initState_pending steps i ri hri) (by rw [hst]; intro h; cases h)
  · rcases runTest_loopInv steps exec results0 sf cfg.baseUrl cfg.targetPageUrl with ⟨_, hinv⟩
    rcases hlo : (runLoop exec sf results0 steps.length cfg.baseUrl cfg.targetPageUrl
        steps 0 (initState steps)).2.2 with _ | p
    · rw [hlo] at hinv
      constructor
      · intro rj hjr
        rw [hstate] at hjr
        exact (hinv (i + 1) rj hjr).1
      · intro _ j rj _ hjr
        rw [hstate] at hjr
        exact (hinv j rj hjr).1
    · rw [hlo] at hinv
      rcases hinv with ⟨hp, k, rk, _, hrk, hrkst, ⟨m2, hm2, hco2⟩, hafter, hbefore⟩
      rw [hstate] at hri
      have hik : i < k := by
        rcases Nat.lt_trichotomy i k with hlt | heq | hgt
        · exact hlt
        · subst heq
          rw [hri] at hrk
          injection hrk with hrk2
          rw [hrk2] at hm
          rw [hm] at hm2
          injection hm2 with hm3
          rw [← hm3] at hco2
          rw [hco2] at hco
          cases hco
        · have := hafter i ri hgt hri
          rw [hst] at this
          cases this
      constructor
      · intro rj hjr
        rw [hstate] at hjr
        rcases Nat.lt_or_ge (i + 1) k with hlt | hge
        · exact (hbefore (i + 1) rj hlt hjr).1
        · have hk1 : i + 1 = k := by omega
          subst hk1
          rw [hjr] at hrk
          injection hrk with hrk2
          rw [hrk2, hrkst]
          intro h
          cases h
      · intro hall j rj hj hjr
        exfalso
        have := hall k rk m2 (by rw [hstate]; exact hrk) hrkst hm2
        rw [this] at hco2
        cases hco2

/-! Concrete fixtures used by witnesses and counterexamples. -/

/-- The cross-origin-qualified failure message of a `click` step. -/
def coMsg : String :=
  "Cannot access window (cross-origin). Please verify manually in the test window."

/-- An oracle where every step fails with a plain (non-cross-origin) message. -/
def hardFailExec : Nat → ExecResult := fun _ => ⟨false, "boom", 7⟩

/-- An oracle where every step fails with the cross-origin-qualified message. -/
def coFailExec : Nat → ExecResult := fun _ => ⟨false, coMsg, 3⟩

/-- An oracle where every step succeeds. -/
def okExec : Nat → ExecResult := fun _ => ⟨true, "ok", 1⟩

def sampleClickStep : Step :=
  { id := "c1", type := .click, selector := some "#a", description := "Click element" }

def sampleClickStep2 : Step :=
  { id := "c2", type := .click, selector := some "#b", description := "Click element" }

def sampleNavStep : Step :=
  { id := "n1", type := .navigate, url := some "https://x.com", description := "Navigate to URL" }

/-- A run environment where the window opened and nothing threw. -/
def runCfgOpen : RunCfg :=
  { baseUrl := none, targetPageUrl := none, windowOpened := true,
    upfrontNavThrows := false, upfrontNavErrMsg := "", accessibleAfterNav := true }

/-- Witness for C1 at a concrete two-click run whose first step fails hard. -/
theorem runTest_hard_failure_aborts_witness :
    (∃ p : Post, (runTest [sampleClickStep, sampleClickStep2] hardFailExec [] none runCfgOpen).posts = [p] ∧
      p.status = "failed") ∧
    (∀ (j : Nat) (rj : TestResult), 0 < j →
      (runTest [sampleClickStep, sampleClickStep2] hardFailExec [] none runCfgOpen).state[j]? = some rj →
      rj.status = .pending) :=
  runTest_hard_failure_aborts [sampleClickStep, sampleClickStep2] hardFailExec [] none runCfgOpen
    0 ⟨"Click element", .failed, some "boom", some 7⟩ "boom"
    (by decide) (by rfl) (by rfl) (by rfl) (by rfl)

/-- Witness for C2 at a concrete two-click run where both steps fail with the
cross-origin-qualified message. -/
theorem runTest_crossOrigin_failure_continues_witness :
    (∀ rj : TestResult, (runTest [sampleClickStep, sampleClickStep2] coFailExec [] none runCfgOpen).state[0 + 1]? = some rj →
      rj.status ≠ .pending) ∧
    ((∀ (j : Nat) (rj : TestResult) (m2 : String),
        (runTest [sampleClickStep, sampleClickStep2] coFailExec [] none runCfgOpen).state[j]? = some rj →
        rj.status = .failed → rj.message = some m2 → isCrossOriginWarning m2 = true) →
      ∀ (j : Nat) (rj : TestResult), 0 < j →
        (runTest [sampleClickStep, sampleClickStep2] coFailExec [] none runCfgOpen).state[j]? = some rj →
        rj.status ≠ .pending) :=
  runTest_crossOrigin_failure_continues [sampleClickStep, sampleClickStep2] coFailExec [] none
    runCfgOpen 0 ⟨"Click element", .failed, some coMsg, some 3⟩ coMsg
    (by decide) (by rfl) (by rfl) (by rfl) (by rfl)

/-- Claim C3 (code bug): the completion-path save computes its status and
counts from the stale `results` closure snapshot, not from the per-step
updates made during the run.  On a first run (`results0 = []`), a run whose
only step ends `failed` with a cross-origin-qualified message (so the loop
completes) is persisted with status `"passed"`, `failedSteps = 0` and empty
`stepResults`, although the final step state is `failed` — contradicting
"status = failed if any step failed". -/
theorem runTest_completion_status_stale :
    (∃ p : Post, (runTest [sampleClickStep] coFailExec [] none runCfgOpen).posts = [p] ∧
      p.status = "passed" ∧ p.failedSteps = 0 ∧ p.stepResults = []) ∧
    (∃ r : TestResult, (runTest [sampleClickStep] coFailExec [] none runCfgOpen).state[0]? = some r ∧
      r.status = .failed) :=
  ⟨⟨{ status := "passed", totalSteps := 1, passedSteps := 0, failedSteps := 0,
      errorMessage := none, stepResults := [] }, by rfl, by rfl, by rfl, by rfl⟩,
   ⟨⟨"Click element", .failed, some coMsg, some 3⟩, by rfl, by rfl⟩⟩

/-- A live browser environment with a present, open, same-origin window where
every queried element exists and is visible. -/
def sampleEnvOk : ExecEnv :=
  { windowPresent := true, closedThrows := false, closedVal := false,
    canAccess := true, navSetThrows := false, canAccessAfterNav := true,
    query := fun _ => .ok (some { offsetParentNull := false }) }

def sampleCustomStep : Step :=
  { id := "u1", type := .custom, action := some "await page.reload()",
    description := "Custom code" }

def sampleAssertStep : Step :=
  { id := "a1", type := .assert, description := "Title ok" }

/-- Counterexample to C4: with a present, open, fully accessible window, a
`custom` step does not behave like `assert` — `executeStep` reports failure
with "Unknown step type: custom" (the `switch` has no `custom` case, so it
falls to the `default` branch), while an `assert` step reports success. -/
theorem executeStep_custom_fails_counterexample :
    (executeStep sampleEnvOk none none sampleCustomStep).success = false ∧
    (executeStep sampleEnvOk none none sampleCustomStep).message = "Unknown step type: custom" ∧
    (executeStep sampleEnvOk none none sampleAssertStep).success = true :=
  ⟨rfl, rfl, rfl⟩

/-- Claim C4 as amended: a `custom` step is never executed against the live
page, but unlike `assert` it always reports failure with the message
"Unknown step type: custom" (via the `default` branch) whenever the test
window is present and not observed closed. -/
theorem executeStep_custom_amended (env : ExecEnv) (b t : Option String) (step : Step)
    (htype : step.type = .custom) (hw : env.windowPresent = true)
    (hcl : env.closedThrows = true ∨ env.closedVal = false) :
    executeStep env b t step = ⟨false, "Unknown step type: custom", 0⟩ := by
  rw [executeStep]
  simp only [htype, hw]
  have hsw : executeStep.execSwitch env b t step = ⟨false, "Unknown step type: custom", 0⟩ := by
    rw [executeStep.execSwitch]
    simp only [htype]
    rfl
  rcases hcl with hct | hcv
  · simp [hct, hsw]
  · rcases hct : env.closedThrows with _ | _
    · simp [hct, hcv, hsw]
    · simp [hct, hsw]

/-- Witness for the amended C4 at the concrete environment and step. -/
theorem executeStep_custom_amended_witness :
    executeStep sampleEnvOk none none sampleCustomStep =
      ⟨false, "Unknown step type: custom", 0⟩ :=
  executeStep_custom_amended sampleEnvOk none none sampleCustomStep rfl rfl (Or.inr rfl)

/-- Counterexample to C5: on the sequence `[click "#a", navigate
"https://x.com"]` the up-front navigation is performed (to the URL of the
navigate step found by `find`) although the sequence's first action is a
click, and the navigate step at index 1 is nevertheless executed again by the
main loop — its navigation logic is invoked twice in one run. -/
theorem runTest_upfrontNav_counterexample :
    (runTest [sampleClickStep, sampleNavStep] okExec [] none runCfgOpen).upfrontNav =
      some "https://x.com" ∧
    sampleClickStep.type ≠ .navigate ∧
    (runTest [sampleClickStep, sampleNavStep] okExec [] none runCfgOpen).executed = [0, 1] ∧
    sampleNavStep.type = .navigate := by
  refine ⟨rfl, ?_, rfl, rfl⟩
  intro h
  cases h

/-- Claim C5 as amended: in a run whose window opened, the up-front navigation
is attempted exactly when some step (not necessarily the first) is a navigate
step with a URL; when additionally the first step's type is `navigate` and the
up-front navigation did not throw, the first step is marked `passed` by the
main loop without `executeStep` being invoked for it.  (When the found
navigate step is not at index 0 it is executed again in the loop, as the
counterexample shows.) -/
theorem runTest_upfrontNav_amended (steps : List Step) (exec : Nat → ExecResult)
    (results0 : List TestResult) (errClosure : Option String) (cfg : RunCfg)
    (hw : cfg.windowOpened = true) :
    ((runTest steps exec results0 errClosure cfg).upfrontNav.isSome = true ↔
      steps.length ≠ 0 ∧
        (steps.find? (fun s => s.type == .navigate && jsTruthy s.url)).isSome = true) ∧
    (cfg.upfrontNavThrows = false →
      ∀ s0 rest, steps = s0 :: rest → s0.type = .navigate →
      (steps.find? (fun s => s.type == .navigate && jsTruthy s.url)).isSome = true →
      (0 ∉ (runTest steps exec results0 errClosure cfg).executed) ∧
      (∀ r0 : TestResult, (runTest steps exec results0 errClosure cfg).state[0]? = some r0 →
        r0.status = .passed)) := by
  constructor
  · -- the up-front navigation happens iff a navigate-with-url step exists
    rw [runTest]
    by_cases h0 : (steps.length == 0) = true
    · rw [if_pos h0]
      simp only [Option.isSome_none, Bool.false_eq_true, false_iff]
      intro h
      exact h.1 (by simpa using h0)
    · rw [if_neg h0]
      simp only [hw, Bool.not_true, Bool.false_eq_true, if_false]
      rcases hfind : steps.find? (fun s => s.type == .navigate && jsTruthy s.url) with _ | fstep
      · rw [hfind]
        rcases hlo : (runLoop exec false results0 steps.length cfg.baseUrl cfg.targetPageUrl
            steps 0 (initState steps)).2.2 with _ | p <;>
          simp [runTest.runTestFinish, hlo]
      · rw [hfind]
        by_cases hthrow : cfg.upfrontNavThrows = true
        · simp only [hthrow, if_true]
          simp [by simpa using h0]
        · simp only [hthrow, Bool.false_eq_true, if_false]
          rcases hlo : (runLoop exec true results0 steps.length cfg.baseUrl cfg.targetPageUrl
              steps 0 (initState steps)).2.2 with _ | p <;>
            simp [runTest.runTestFinish, hlo, by simpa using h0]
  · -- the navigation-skip: index 0 is never executed and ends passed
    intro hthrow s0 rest hsteps htype hfind
    rcases Option.isSome_iff_exists.mp hfind with ⟨fstep, hfind2⟩
    subst hsteps
    rw [runTest]
    rw [if_neg (by simp)]
    simp only [hw, Bool.not_true, Bool.false_eq_true, if_false]
    rw [hfind2]
    simp only [hthrow, Bool.false_eq_true, if_false]
    have hskip : (true && (0 : Nat) == 0 && (s0.type == StepType.navigate)) = true := by
      simp [htype]
    rcases hlo : (runLoop exec true results0 (s0 :: rest).length cfg.baseUrl cfg.targetPageUrl
        (s0 :: rest) 0 (initState (s0 :: rest))).2.2 with _ | p
    all_goals
      simp only [runTest.runTestFinish, hlo]
      constructor
    case none.left | some.left =>
      intro hmem
      rw [runLoop, if_pos hskip] at hmem
      have := runLoop_executed_ge exec true results0 (s0 :: rest).length cfg.baseUrl
        cfg.targetPageUrl rest 1 _ 0 hmem
      omega
    case none.right | some.right =>
      intro r0 hr0
      rw [runLoop, if_pos hskip] at hr0
      rw [runLoop_preserves_lt exec true results0 (s0 :: rest).length cfg.baseUrl
        cfg.targetPageUrl rest 1 _ 0 (by omega)] at hr0
      rw [getElem?_updAt_eq] at hr0
      have hinit : (initState (s0 :: rest))[0]? =
          some ({ step := if s0.description == "" then s0.type.toStr else s0.description,
                  status := .pending } : TestResult) := by
        simp [initState]
      rw [hinit] at hr0
      injection hr0 with hr1
      rw [← hr1]

/-- Witness for the amended C5 at the concrete `[navigate, click]` run. -/
theorem runTest_upfrontNav_amended_witness :
    ((runTest [sampleNavStep, sampleClickStep] okExec [] none runCfgOpen).upfrontNav.isSome = true ↔
      ([sampleNavStep, sampleClickStep] : List Step).length ≠ 0 ∧
        (([sampleNavStep, sampleClickStep] : List Step).find?
          (fun s => s.type == .navigate && jsTruthy s.url)).isSome = true) ∧
    (runCfgOpen.upfrontNavThrows = false →
      ∀ s0 rest, ([sampleNavStep, sampleClickStep] : List Step) = s0 :: rest →
      s0.type = .navigate →
      (([sampleNavStep, sampleClickStep] : List Step).find?
        (fun s => s.type == .navigate && jsTruthy s.url)).isSome = true →
      (0 ∉ (runTest [sampleNavStep, sampleClickStep] okExec [] none runCfgOpen).executed) ∧
      (∀ r0 : TestResult,
        (runTest [sampleNavStep, sampleClickStep] okExec [] none runCfgOpen).state[0]? = some r0 →
        r0.status = .passed)) :=
  runTest_upfrontNav_amended [sampleNavStep, sampleClickStep] okExec [] none runCfgOpen rfl

theorem toList_append (a c : String) : (a ++ c).toList = a.toList ++ c.toList := by
  cases a; cases c; simp [String.toList, String.append]

/-- A prefix of `a` is a prefix of `a ++ c`. -/
theorem jsStartsWith_append (a c p : String) (h : jsStartsWith a p = true) :
    jsStartsWith (a ++ c) p = true := by
  rw [jsStartsWith] at h ⊢
  rw [toList_append]
  exact List.isPrefixOf_iff_prefix.mpr
    ((List.isPrefixOf_iff_prefix.mp h).trans (List.prefix_append a.toList c.toList))

/-- Claim C6: selector classification in the Code Emitter is a pure, total
function of the selector string — for every selector, `#` yields the id
locator, `.` the class locator, and anything else the generic css locator,
as emitted in the selenium/typescript click translation. -/
theorem generateStepCode_selector_classification (s : String) (hs : s ≠ "") :
    (jsStartsWith s "#" = true →
      generateStepCode
        { id := "c", type := .click, selector := some s, description := "Click element" }
        "selenium" "typescript" none none "r" =
        .ok ("      await driver.findElement(By.id(\x27" ++ s.drop 1 ++ "\x27)).click()")) ∧
    (jsStartsWith s "#" = false → jsStartsWith s "." = true →
      generateStepCode
        { id := "c", type := .click, selector := some s, description := "Click element" }
        "selenium" "typescript" none none "r" =
        .ok ("      await driver.findElement(By.className(\x27" ++ s.drop 1 ++ "\x27)).click()")) ∧
    (jsStartsWith s "#" = false → jsStartsWith s "." = false →
      generateStepCode
        { id := "c", type := .click, selector := some s, description := "Click element" }
        "selenium" "typescript" none none "r" =
        .ok ("      await driver.findElement(By.css(\x27" ++ s ++ "\x27)).click()")) := by
  have hs' : (s == "") = false := by
    rcases h : (s == "") with _ | _
    · rfl
    · exact absurd (by simpa using h) hs
  refine ⟨?_, ?_, ?_⟩
  · intro h1
    simp [generateStepCode, generateStepCodePure, seleniumStepCode, seleniumByMethod,
      jsTruthy, hs', h1, String.append_assoc]
    rw [← String.append_assoc]
    congr 1
  · intro h1 h2
    simp [generateStepCode, generateStepCodePure, seleniumStepCode, seleniumByMethod,
      jsTruthy, hs', h1, h2, String.append_assoc]
    rw [← String.append_assoc]
    congr 1
  · intro h1 h2
    simp [generateStepCode, generateStepCodePure, seleniumStepCode, seleniumByMethod,
      jsTruthy, hs', h1, h2, String.append_assoc]
    rw [← String.append_assoc]
    congr 1

/-- Witness for C6 at the three selectors `#login`, `.btn` and `div > a`. -/
theorem generateStepCode_selector_classification_witness :
    generateStepCode
      { id := "c", type := .click, selector := some "#login", description := "Click element" }
      "selenium" "typescript" none none "r" =
      .ok ("      await driver.findElement(By.id(\x27login\x27)).click()") ∧
    generateStepCode
      { id := "c", type := .click, selector := some ".btn", description := "Click element" }
      "selenium" "typescript" none none "r" =
      .ok ("      await driver.findElement(By.className(\x27btn\x27)).click()") ∧
    generateStepCode
      { id := "c", type := .click, selector := some "div > a", description := "Click element" }
      "selenium" "typescript" none none "r" =
      .ok ("      await driver.findElement(By.css(\x27div > a\x27)).click()") := by
  refine ⟨?_, ?_, ?_⟩
  · have h := (generateStepCode_selector_classification "#login" (by decide)).1 (by rfl)
    simpa using h
  · have h := (generateStepCode_selector_classification ".btn" (by decide)).2.1 (by rfl) (by rfl)
    simpa using h
  · have h := (generateStepCode_selector_classification "div > a" (by decide)).2.2 (by rfl) (by rfl)
    simpa using h

/-- Counterexample to C7: resolution is not idempotent for a base without a
scheme.  With base `example.com`, resolving `a` gives `example.com/a`, and
resolving that again gives `example.com/example.com/a`. -/
theorem getFullUrl_not_idempotent_counterexample :
    getFullUrl (some "example.com") (getFullUrl (some "example.com") "a") ≠
      getFullUrl (some "example.com") "a" := by decide

/-- Claim C7 as amended: absolute URLs always pass through unchanged
regardless of base; a relative URL resolves to the base (trailing slashes
stripped) concatenated with the path given a leading slash; resolution is
idempotent whenever the stripped base itself starts with a scheme (the
repository's default base does; a schemeless base breaks idempotence, as the
counterexample shows); and the live engine's `resolveUrl` is the same
resolution under the combined base `baseUrl || targetPageUrl || default`. -/
theorem getFullUrl_amended (b : Option String) (u : String) :
    ((jsStartsWith u "http://" = true ∨ jsStartsWith u "https://" = true) →
      getFullUrl b u = u) ∧
    (jsStartsWith u "http://" = false → jsStartsWith u "https://" = false →
      getFullUrl b u =
        stripTrailingSlashes (jsOrStr b "https://staging.joinsucceed.ai") ++
          (if jsStartsWith u "/" then u else "/" ++ u)) ∧
    ((jsStartsWith (stripTrailingSlashes (jsOrStr b "https://staging.joinsucceed.ai")) "http://" = true ∨
      jsStartsWith (stripTrailingSlashes (jsOrStr b "https://staging.joinsucceed.ai")) "https://" = true) →
      getFullUrl b (getFullUrl b u) = getFullUrl b u) ∧
    (∀ t : Option String,
      resolveUrl b t u =
        getFullUrl (some (jsOrStr b (jsOrStr t "https://staging.joinsucceed.ai"))) u) := by
  refine ⟨?_, ?_, ?_, ?_⟩
  · intro h
    rw [getFullUrl, if_pos (by rcases h with h | h <;> simp [h])]
  · intro h1 h2
    rw [getFullUrl, if_neg (by simp [h1, h2])]
  · intro hb
    by_cases habs : (jsStartsWith u "http://" || jsStartsWith u "https://") = true
    · have hinner : getFullUrl b u = u := by rw [getFullUrl, if_pos habs]
      rw [hinner]
      exact hinner
    · have hrel : getFullUrl b u =
          stripTrailingSlashes (jsOrStr b "https://staging.joinsucceed.ai") ++
            (if jsStartsWith u "/" then u else "/" ++ u) := by
        rw [getFullUrl, if_neg habs]
      have habs2 : (jsStartsWith (getFullUrl b u) "http://" ||
          jsStartsWith (getFullUrl b u) "https://") = true := by
        rw [hrel]
        rcases hb with hb | hb
        · simp [jsStartsWith_append _ _ _ hb]
        · simp [jsStartsWith_append _ _ _ hb]
      rw [getFullUrl, if_pos habs2]
  · intro t
    have hne : jsOrStr b (jsOrStr t "https://staging.joinsucceed.ai") ≠ "" := by
      rcases b with _ | sb
      · rcases t with _ | st
        · simp [jsOrStr]
        · by_cases hst : (st == "") = true <;> simp [jsOrStr, hst]
          · intro hc
            exact absurd (by simpa using hst) (by simpa using hc)
      · rcases t with _ | st
        · by_cases hsb : (sb == "") = true <;> simp [jsOrStr, hsb]
          · intro hc
            exact absurd (by simpa using hsb) (by simpa using hc)
        · by_cases hsb : (sb == "") = true <;> by_cases hst : (st == "") = true <;>
            simp [jsOrStr, hsb, hst] <;> intro hc
          · exact absurd (by simpa using hst) (by simpa using hc)
          · exact absurd (by simpa using hsb) (by simpa using hc)
          · exact absurd (by simpa using hsb) (by simpa using hc)
    rw [resolveUrl, getFullUrl]
    by_cases habs : (jsStartsWith u "http://" || jsStartsWith u "https://") = true
    · rw [if_pos habs, if_pos habs]
    · rw [if_neg habs, if_neg habs]
      have : jsOrStr (some (jsOrStr b (jsOrStr t "https://staging.joinsucceed.ai")))
          "https://staging.joinsucceed.ai" =
          jsOrStr b (jsOrStr t "https://staging.joinsucceed.ai") := by
        rw [jsOrStr]
        rw [if_neg (by simpa using hne)]
      rw [this]

/-- Witness for the amended C7 at base `https://x.com/` and path `a`. -/
theorem getFullUrl_amended_witness :
    getFullUrl (some "https://x.com/") "http://y.io/z" = "http://y.io/z" ∧
    getFullUrl (some "https://x.com/") "a" = "https://x.com/a" ∧
    getFullUrl (some "https://x.com/") (getFullUrl (some "https://x.com/") "a") =
      getFullUrl (some "https://x.com/") "a" ∧
    resolveUrl (some "https://x.com/") (some "https://t.io") "a" =
      getFullUrl (some "https://x.com/") "a" := by
  have h := getFullUrl_amended (some "https://x.com/") "a"
  have habs := getFullUrl_amended (some "https://x.com/") "http://y.io/z"
  refine ⟨habs.1 (Or.inl (by rfl)), ?_, h.2.2.1 (Or.inr (by rfl)), ?_⟩
  · have h2 := h.2.1 (by rfl) (by rfl)
    simpa using h2
  · have h3 := h.2.2.2 (some "https://t.io")
    rw [h3]
    rfl

/-- Claim C8: expected-result formatting never produces an empty boolean
expression: for every input whose trimmed text does not look like code
(including empty and whitespace-only text) the formatter returns the literal
`true`; otherwise it returns the trimmed text, which is then non-empty. -/
theorem formatExpectedResult_spec (s : String) :
    (isValidExpression (jsTrim s) = false → formatExpectedResult s = "true") ∧
    (isValidExpression (jsTrim s) = true → formatExpectedResult s = jsTrim s) ∧
    formatExpectedResult s ≠ "" := by
  rw [formatExpectedResult]
  by_cases h0 : (s == "" || jsTrim s == "") = true
  · rw [if_pos h0]
    have htrim : jsTrim s = "" := by
      rcases Bool.or_eq_true _ _ |>.mp h0 with h | h
      · have hs0 : s = "" := by simpa using h
        rw [hs0]
        rfl
      · simpa using h
    refine ⟨fun _ => rfl, ?_, by decide⟩
    intro hval
    rw [htrim] at hval
    exact absurd hval (by decide)
  · rw [if_neg h0]
    have htne : jsTrim s ≠ "" := by
      intro hc
      exact h0 (by simp [hc])
    by_cases hval : isValidExpression (jsTrim s) = true
    · rw [if_pos hval]
      refine ⟨?_, fun _ => rfl, htne⟩
      intro h
      rw [h] at hval
      cases hval
    · rw [if_neg hval]
      refine ⟨fun _ => rfl, ?_, by decide⟩
      intro h
      exact absurd h hval

/-- Witness for C8 at a prose text (yields `true`) and a comparison (kept). -/
theorem formatExpectedResult_spec_witness :
    formatExpectedResult "The dashboard loads" = "true" ∧
    formatExpectedResult "  count == 3  " = "count == 3" := by
  constructor
  · exact (formatExpectedResult_spec "The dashboard loads").1 (by rfl)
  · have h := (formatExpectedResult_spec "  count == 3  ").2.1 (by rfl)
    rw [h]
    rfl

/-- A JSON text that parses to an array cannot start with `\x7b`: the parser
dispatches on the first character, and the object branch only ever yields
`Json.obj`. -/
theorem jsonParse_arr_not_obj_start (s : String) (a : List Json)
    (h : jsonParse s = some (Json.arr a)) : jsStartsWith s "\x7b" = false := by
  by_contra hc
  have hstart : jsStartsWith s "\x7b" = true := by
    rcases hb : jsStartsWith s "\x7b" with _ | _
    · exact absurd hb hc
    · rfl
  rcases hl : s.toList with _ | ⟨c, t⟩
  · rw [jsStartsWith, hl] at hstart
    cases hstart
  · have hcb : c = Char.ofNat 123 := by
      rw [jsStartsWith, hl] at hstart
      exact (by simpa [List.isPrefixOf] using hstart : Char.ofNat 123 = c).symm
    rw [jsonParse, hl, hcb] at h
    have hfuel : 3 * (Char.ofNat 123 :: t).length + 3 =
        (3 * (Char.ofNat 123 :: t).length + 2) + 1 := rfl
    rw [hfuel] at h
    have hdrop : (Char.ofNat 123 :: t).dropWhile jsonWs = Char.ofNat 123 :: t := by
      rw [List.dropWhile_cons]
      rw [if_neg (by decide)]
    rw [hdrop] at h
    rw [parseValue] at h
    rw [if_pos (by decide)] at h
    rcases hob : parseObjBody (3 * (Char.ofNat 123 :: t).length + 2) (t.dropWhile jsonWs) with
      _ | ⟨ms, r⟩
    · rw [hob] at h
      simp at h
    · rw [hob] at h
      rcases hrest : (List.dropWhile jsonWs r).isEmpty with _ | _ <;> simp [hrest] at h

/-- Claim C9: the public sequence-loading function returns the parsed
structured step array exactly when the first transported string begins with
`[` and parses as a JSON array; otherwise (parse failure, non-array JSON, or
a first string starting with anything else — including `\x7b`, which can never
parse as an array) it returns no structured steps.  Being a total function,
it never throws: the source's `try`/`catch` swallow all parse errors. -/
theorem parseSteps_spec (l : List String) (first : String) (hhead : l.head? = some first) :
    parseSteps l =
      (if jsStartsWith first "[" then
        (match jsonParse first with
         | some (Json.arr a) => a
         | _ => [])
       else []) := by
  rcases l with _ | ⟨f, rest⟩
  · cases hhead
  · have hf : first = f := by
      injection hhead with h
      exact h.symm
    subst hf
    rw [parseSteps]
    by_cases h1 : jsStartsWith first "[" = true
    · rw [if_pos (by simp [h1]), if_pos h1]
    · by_cases h2 : jsStartsWith first "\x7b" = true
      · rw [if_pos (by simp [h2]), if_neg h1]
        rcases hp : jsonParse first with _ | v
        · rfl
        · rcases v with _ | b | lex | str | a | ms
          all_goals
            first
            | rfl
            | exact absurd (jsonParse_arr_not_obj_start first a hp) (by rw [h2]; intro h; cases h)
      · rw [if_neg (by simp [h1, h2]), if_neg h1]

/-- Witness for C9: a serialized array in the first string is returned parsed;
a legacy plain-text first string yields no structured steps. -/
theorem parseSteps_spec_witness :
    parseSteps ["[1]", "click the button"] = [Json.num "1"] ∧
    parseSteps ["click the button", "[1]"] = [] := by
  constructor
  · exact (parseSteps_spec ["[1]", "click the button"] "[1]" rfl).trans (by rfl)
  · exact (parseSteps_spec ["click the button", "[1]"] "click the button" rfl).trans (by rfl)

/-- Claim C10: `generateStepCode` is not total on `api_call` steps — a
non-empty `headers` or `body` string that is not valid JSON makes the
`JSON.parse` exception propagate for every framework and language, while a
step of any other type always returns a string without throwing. -/
theorem generateStepCode_api_call_throws (step : Step) (framework language : String)
    (stepIndex : Option Nat) (baseUrl : Option String) (randomSuffix : String) :
    (step.type = .api_call →
      ((∃ hs, step.headers = some hs ∧ hs ≠ "" ∧ jsonParse hs = none) →
        ∃ e, generateStepCode step framework language stepIndex baseUrl randomSuffix =
          .error e) ∧
      ((∀ hs, step.headers = some hs → hs ≠ "" → jsonParse hs ≠ none) →
        (∃ bs, step.body = some bs ∧ bs ≠ "" ∧ jsonParse bs = none) →
        ∃ e, generateStepCode step framework language stepIndex baseUrl randomSuffix =
          .error e)) ∧
    (step.type ≠ .api_call →
      ∃ out, generateStepCode step framework language stepIndex baseUrl randomSuffix =
        .ok out) := by
  constructor
  · intro htype
    have htb : (step.type == StepType.api_call) = true := by simp [htype]
    constructor
    · rintro ⟨hs, hhs, hne, hparse⟩
      rw [generateStepCode.eq_def, if_pos htb]
      have htr : jsTruthy step.headers = true := by
        rw [hhs, jsTruthy]
        simpa using hne
      rw [htr]
      simp only [if_true, hhs, Option.getD_some]
      rw [jsonParseJs, hparse]
      exact ⟨_, rfl⟩
    · rintro hok ⟨bs, hbs, hbne, hbparse⟩
      rw [generateStepCode.eq_def, if_pos htb]
      have hbodyT : jsTruthy step.body = true := by
        rw [hbs, jsTruthy]
        simpa using hbne
      have hgd : (step.body).getD "" = bs := by rw [hbs]; rfl
      rcases hh : step.headers with _ | hs
      · rw [hbodyT, hgd]
        simp only [show jsTruthy (none : Option String) = false from rfl,
          Bool.false_eq_true, if_false, if_true]
        simp only [jsonParseJs, hbparse]
        exact ⟨_, rfl⟩
      · by_cases hse : hs = ""
        · subst hse
          rw [hbodyT, hgd]
          simp only [show jsTruthy (some "") = false from rfl,
            Bool.false_eq_true, if_false, if_true]
          simp only [jsonParseJs, hbparse]
          exact ⟨_, rfl⟩
        · obtain ⟨v, hv⟩ : ∃ v, jsonParse hs = some v := by
            rcases hpv : jsonParse hs with _ | v
            · exact absurd hpv (hok hs hh hse)
            · exact ⟨v, rfl⟩
          have hht : jsTruthy (some hs) = true := by
            rw [jsTruthy]
            simpa using hse
          rw [hbodyT, hgd, hht]
          simp only [if_true, Option.getD_some]
          simp only [jsonParseJs, hv, hbparse]
          exact ⟨_, rfl⟩
  · intro htype
    have htb : (step.type == StepType.api_call) = false := by
      rcases h : (step.type == StepType.api_call) with _ | _
      · rfl
      · exact absurd (by simpa using h) htype
    rw [generateStepCode.eq_def, if_neg (by rw [htb]; intro h; cases h)]
    exact ⟨_, rfl⟩

def apiStepBadHeaders : Step :=
  { id := "p1", type := .api_call, url := some "https://api.example.com",
    method := some "GET", headers := some "notjson", description := "Make API Call" }

def apiStepBadBody : Step :=
  { id := "p2", type := .api_call, url := some "https://api.example.com",
    method := some "POST", body := some "still not json", description := "Make API Call" }

/-- Witness for C10: corrupt headers or body throw (for two different
frameworks); a non-`api_call` step returns code. -/
theorem generateStepCode_api_call_throws_witness :
    (∃ e, generateStepCode apiStepBadHeaders "jest" "typescript" none none "r" = .error e) ∧
    (∃ e, generateStepCode apiStepBadBody "playwright" "typescript" none none "r" = .error e) ∧
    (∃ out, generateStepCode sampleAssertStep "cypress" "typescript" none none "r" = .ok out) :=
  ⟨((generateStepCode_api_call_throws apiStepBadHeaders "jest" "typescript" none none "r").1
      rfl).1 ⟨"notjson", rfl, by decide, by rfl⟩,
   ((generateStepCode_api_call_throws apiStepBadBody "playwright" "typescript" none none "r").1
      rfl).2 (fun hs hhs => absurd hhs (by rw [apiStepBadBody]; intro h; cases h))
      ⟨"still not json", rfl, by decide, by rfl⟩,
   (generateStepCode_api_call_throws sampleAssertStep "cypress" "typescript" none none "r").2
      (by rw [sampleAssertStep]; intro h; cases h)⟩

end TestMaker
